import Mathlib

/-!
Shallow embedding of the everart-forge-mcp server core (src/unnamed/part_000):
request validation, retry loops for job submission and artifact fetch,
path resolution, format conversion / file write, and the tool handlers
`generate_image` and `view_image`.  Effects (remote calls, the filesystem,
the viewer-open) are passed in explicitly; strings and integers model the
JS values directly.
-/

namespace EverArtForge

/-- Error taxonomy of the server (enum EverArtErrorType, lines 24-32). -/
inductive EverArtErrorType where
  | API_ERROR
  | AUTHENTICATION_ERROR
  | NETWORK_ERROR
  | VALIDATION_ERROR
  | STORAGE_ERROR
  | FORMAT_ERROR
  | UNKNOWN_ERROR
deriving DecidableEq, Repr

/-- Retry budget (line 72). -/
def MAX_RETRIES : Nat := 3

/-- Initial backoff delay in milliseconds (line 73). -/
def INITIAL_RETRY_DELAY : Nat := 1000

/-- Storage root.  In the source it is path.join(__dirname, "..", "images")
(line 21); the claims are independent of its concrete value, so we model it
as the fixed relative directory name. -/
def STORAGE_DIR : String := "images"

/-- Boolean test that the first character list is a leading segment of
the second. -/
def startsWithChars : List Char → List Char → Bool
  | [], _ => true
  | _ :: _, [] => false
  | a :: as, b :: bs => a = b && startsWithChars as bs

/-- Boolean test that the first character list occurs contiguously inside
the second. -/
def containsChars (sub : List Char) : List Char → Bool
  | [] => sub.isEmpty
  | x :: xs => startsWithChars sub (x :: xs) || containsChars sub xs

/-- JS String.prototype.toLowerCase over the character list. -/
def jsToLower (s : String) : String := ⟨s.data.map Char.toLower⟩

/-- JS String.prototype.trim: leading and trailing whitespace removed. -/
def jsTrim (s : String) : String :=
  ⟨((s.data.dropWhile Char.isWhitespace).reverse.dropWhile Char.isWhitespace).reverse⟩

/-- The first n characters of a string (JS slice(0, n) for n ≥ 0). -/
def strTake (s : String) (n : Nat) : String := ⟨s.data.take n⟩

/-- The string without its first n characters (JS slice(n)). -/
def strDrop (s : String) (n : Nat) : String := ⟨s.data.drop n⟩

/-- Character count of a string. -/
def strLen (s : String) : Nat := s.data.length

/-- Split a character list at every occurrence of the separator
character (JS String.prototype.split with a one-character separator). -/
def splitCharList (c : Char) : List Char → List (List Char)
  | [] => [[]]
  | x :: xs =>
    let r := splitCharList c xs
    if x = c then [] :: r
    else (x :: r.headD []) :: r.tail

/-- JS s.split(c)[0]: the prefix of s up to the first occurrence of c. -/
def jsSplitFirst (s : String) (c : Char) : String := ⟨s.data.takeWhile (· ≠ c)⟩

/-- JS s.split(c).pop(): the suffix of s after the last occurrence of c
(the whole string when c does not occur). -/
def jsSplitLast (s : String) (c : Char) : String :=
  ⟨(s.data.reverse.takeWhile (· ≠ c)).reverse⟩

/-- JS truthiness test of an optional string: undefined and the empty
string are falsy. -/
def jsFalsy (x : Option String) : Bool :=
  match x with
  | none => true
  | some s => s = ""

/-- JS string-or-default (the idiom `x || d`): undefined and the empty
string are falsy and select the default. -/
def jsOrStr (x : Option String) (d : String) : String :=
  match x with
  | none => d
  | some s => if s = "" then d else s

/-- JS number-or-default (the idiom `x || d`): undefined and 0 are falsy
and select the default.  JS numbers are modelled as integers. -/
def jsOrInt (x : Option Int) (d : Int) : Int :=
  match x with
  | none => d
  | some v => if v = 0 then d else v

/-- JS String.prototype.includes: the empty needle is always found;
otherwise substring search (via splitOn: the needle occurs iff splitting
on it produces more than one piece). -/
def jsIncludes (s sub : String) : Bool :=
  if sub = "" then true else containsChars sub.data s.data

/-- Model/format compatibility check (lines 131-137): SVG is only
supported by Recraft-Vector (model id 8000). -/
def validateModelFormatCompatibility (model format : String) : Bool :=
  if jsToLower format == "svg" && model != "8000" then false else true

/-- Valid model ids (line 552). -/
def validModels : List String := ["5000", "6000", "7000", "8000", "9000"]

/-- Supported output formats (lines 184, 572). -/
def supportedFormats : List String := ["svg", "png", "jpg", "jpeg", "webp"]

/-- Model-id extraction from the request (lines 536, 555-559):
`args.model || "5000"`, then a combined "id:label" value is truncated at
the first colon. -/
def extractModelId (m : Option String) : String :=
  let mi := jsOrStr m "5000"
  if jsIncludes mi ":" then jsSplitFirst mi ':' else mi

/-- Arguments of the generate_image tool (lines 524-541). -/
structure GenerateArgs where
  prompt : String
  model : Option String
  image_count : Option Int
  format : Option String
  output_path : Option String
  web_project_path : Option String
  project_type : Option String
  asset_path : Option String
deriving DecidableEq, Repr

/-- A validated request as the handler uses it past the checks:
the bare model id, the effective image count, and the requested format
(still un-lowercased, exactly as the handler passes it on). -/
structure ValidatedRequest where
  modelInput : String
  image_count : Int
  format : String
deriving DecidableEq, Repr

/-- Compatibility failure message (lines 191, 584), with the quote
characters of the source written as \x27. -/
def incompatMessage (model format : String) : String :=
  "Format \x27" ++ format ++ "\x27 is not compatible with model \x27" ++ model ++
    "\x27. SVG format is only available with Recraft-Vector (8000) model."

/-- The validation prefix of the generate_image handler (lines 527-586):
prompt check, image_count check, model extraction and check, format
defaulting and check, and the model/format compatibility check.  Every
failure is a VALIDATION_ERROR error response. -/
def validateGenerateArgs (args : GenerateArgs) :
    Except (EverArtErrorType × String) ValidatedRequest :=
  if jsTrim args.prompt = "" then
    .error (.VALIDATION_ERROR, "Prompt is required and must be a non-empty string.")
  else
    let image_count := jsOrInt args.image_count 1
    if image_count < 1 ∨ image_count > 10 then
      .error (.VALIDATION_ERROR, "image_count must be between 1 and 10")
    else
      let modelInput := extractModelId args.model
      if validModels.contains modelInput then
        let format := jsOrStr args.format (if modelInput = "8000" then "svg" else "png")
        if supportedFormats.contains (jsToLower format) then
          if validateModelFormatCompatibility modelInput format then
            .ok ⟨modelInput, image_count, format⟩
          else
            .error (.VALIDATION_ERROR, incompatMessage modelInput format)
        else
          .error (.VALIDATION_ERROR,
            "Unsupported format: " ++ format ++ ". Supported formats are: svg, png, jpg, jpeg, webp")
      else
        .error (.VALIDATION_ERROR,
          "Invalid model ID: " ++ modelInput ++ ". Valid models are: 5000, 6000, 7000, 8000, 9000")

/-- Path join.  Node path.join also normalizes separators and dot
segments; the claims only involve plain relative segments, for which the
result is the separator-joined concatenation. -/
def pathJoin (a b : String) : String := a ++ "/" ++ b

/-- Node path.extname: the extension of the last path segment, from its
last dot to the end; empty when there is no dot, when the dot is the
leading character of the segment, or for the special segments "." and
"..". -/
def extname (p : String) : String :=
  let base : List Char := (splitCharList '/' p.data).getLastD []
  if base = ['.'] ∨ base = ['.', '.'] then ""
  else
    let rev := base.reverse
    match rev.findIdx? (· = '.') with
    | none => ""
    | some k =>
      if base.length - 1 - k = 0 then ""
      else ⟨'.' :: (rev.take k).reverse⟩

/-- Prompt sanitization for filenames (line 205): first 20 characters,
non-alphanumeric characters replaced by underscores, lowercased. -/
def sanitizePrompt (p : String) : String :=
  jsToLower ⟨(p.data.take 20).map (fun c => if c.isAlphanum then c else '_')⟩

/-- Timestamp sanitization (line 204): colons and periods of the ISO
string replaced by dashes. -/
def sanitizeTimestamp (t : String) : String :=
  ⟨t.data.map (fun c => if c = ':' ∨ c = '.' then '-' else c)⟩

/-- Web-project asset directory computation (lines 140-178).  The
directory-creation side effect is modelled as always succeeding, so the
catch branch returning undefined is not reachable here. -/
def processWebProjectPath (basePath : Option String) (projectType : Option String)
    (assetPath : Option String) : Option String :=
  if jsFalsy basePath then none
  else
    let bp := basePath.getD ""
    if ¬ jsFalsy projectType then
      let pt := jsToLower (projectType.getD "")
      if pt = "react" ∨ pt = "vue" ∨ pt = "angular" ∨ pt = "next" ∨ pt = "nuxt" then
        some (pathJoin (pathJoin bp "public") (jsOrStr assetPath "images"))
      else
        some (pathJoin bp (jsOrStr assetPath "assets/images"))
    else if ¬ jsFalsy assetPath then
      some (pathJoin bp (assetPath.getD ""))
    else
      some bp

/-- Destination path resolution of saveImage (lines 203-230), after the
project base path has been computed.  First match wins: explicit output
path (with extension defaulting/override), then project base path joined
with the prompt/model filename, then the default storage directory with a
timestamped filename. -/
def resolveFilepath (outputPath : Option String) (projectBasePath : Option String)
    (timestamp model sanitizedPrompt format : String) : String :=
  if ¬ jsFalsy outputPath then
    let op := outputPath.getD ""
    let ext := extname op
    if ext = "" then op ++ "." ++ format
    else if jsToLower (strDrop ext 1) ≠ jsToLower format then
      strTake op (strLen op - strLen ext) ++ "." ++ format
    else op
  else if ¬ jsFalsy projectBasePath then
    pathJoin (projectBasePath.getD "") (sanitizedPrompt ++ "_" ++ model ++ "." ++ format)
  else
    pathJoin STORAGE_DIR
      (timestamp ++ "_" ++ model ++ "_" ++ sanitizedPrompt ++ "." ++ format)

/-- An HTTP response of the artifact fetch.  retryAfter is the numeric
value of the retry-after header (none when the header is absent); the
body is the response bytes, modelled as text. -/
structure FetchResponse where
  ok : Bool
  status : Int
  statusText : String
  retryAfter : Option Nat
  body : String
deriving DecidableEq, Repr

/-- The job-submission retry loop of generate_image (lines 589-615),
fuel-indexed: fuel stands for MAX_RETRIES - retryCount, which the loop
maintains exactly since retryCount is incremented once per continuing
iteration.  Returns the loop outcome (none when the loop exits without a
generation), the backoff delays waited, and the number of attempts. -/
def createLoopAux {α : Type} (op : Nat → Except String α) (retryCount : Nat) :
    Nat → Option (Except String α) × List Nat × Nat
  | 0 => (none, [], 0)
  | fuel + 1 =>
    match op retryCount with
    | .ok v => (some (.ok v), [], 1)
    | .error e =>
      if MAX_RETRIES - 1 ≤ retryCount then (some (.error e), [], 1)
      else
        let r := createLoopAux op (retryCount + 1) fuel
        (r.1, INITIAL_RETRY_DELAY * 2 ^ retryCount :: r.2.1, r.2.2 + 1)

/-- Outcome of one of the retry loops: the final result, the delays
waited between attempts, and the number of attempts made. -/
structure LoopOut (α : Type) where
  result : Except String α
  delays : List Nat
  attempts : Nat
deriving Repr

/-- The job-submission call with retries (lines 589-619), including the
post-loop missing-generation check (lines 617-619). -/
def createGeneration {α : Type} (op : Nat → Except String α) : LoopOut α :=
  match createLoopAux op 0 MAX_RETRIES with
  | (none, ds, n) => ⟨.error "Failed to create generation after multiple attempts", ds, n⟩
  | (some r, ds, n) => ⟨r, ds, n⟩

/-- The artifact-fetch retry loop of saveImage (lines 233-258),
fuel-indexed like createLoopAux (here retryCount is incremented at the
bottom of every continuing iteration).  The oracle gives each attempt
either a response or a thrown network error.  response carries the last
assigned response across iterations; a 429 waits the retry-after hint
(default 5 seconds) instead of the exponential backoff, any other non-ok
status throws into the catch, and the catch rethrows on the last
attempt. -/
def fetchLoopAux (oracle : Nat → Except String FetchResponse) (retryCount : Nat) :
    Nat → Option FetchResponse → Except String (Option FetchResponse) × List Nat × Nat
  | 0, response => (.ok response, [], 0)
  | fuel + 1, response =>
    match oracle retryCount with
    | .ok resp =>
      if resp.ok then (.ok (some resp), [], 1)
      else if resp.status = 429 then
        let retryAfter := resp.retryAfter.getD 5
        let r := fetchLoopAux oracle (retryCount + 1) fuel (some resp)
        (r.1, retryAfter * 1000 :: r.2.1, r.2.2 + 1)
      else
        let msg := "Failed to fetch image: " ++ resp.statusText ++ " (" ++ toString resp.status ++ ")"
        if MAX_RETRIES - 1 ≤ retryCount then (.error msg, [], 1)
        else
          let r := fetchLoopAux oracle (retryCount + 1) fuel (some resp)
          (r.1, INITIAL_RETRY_DELAY * 2 ^ retryCount :: r.2.1, r.2.2 + 1)
    | .error e =>
      if MAX_RETRIES - 1 ≤ retryCount then (.error e, [], 1)
      else
        let r := fetchLoopAux oracle (retryCount + 1) fuel response
        (r.1, INITIAL_RETRY_DELAY * 2 ^ retryCount :: r.2.1, r.2.2 + 1)

/-- The artifact fetch with retries (lines 232-262), including the
post-loop check that a response exists and is ok (lines 260-262). -/
def fetchImage (oracle : Nat → Except String FetchResponse) : LoopOut FetchResponse :=
  match fetchLoopAux oracle 0 MAX_RETRIES none with
  | (.error e, ds, n) => ⟨.error e, ds, n⟩
  | (.ok none, ds, n) => ⟨.error "Failed to fetch image after 3 attempts", ds, n⟩
  | (.ok (some r), ds, n) =>
    if r.ok then ⟨.ok r, ds, n⟩ else ⟨.error "Failed to fetch image after 3 attempts", ds, n⟩

/-- The filesystem, as a map from paths to file contents (contents
modelled as text). -/
abbrev FS := List (String × String)

/-- Write a path/content binding, replacing any previous binding. -/
def fsSet (fs : FS) (p : String) (c : String) : FS :=
  (p, c) :: fs.filter (fun e => e.1 ≠ p)

/-- Look up a path. -/
def fsGet (fs : FS) (p : String) : Option String :=
  (fs.find? (fun e => e.1 = p)).map (·.2)

/-- Node fs.writeFile and sharp .toFile write directly to the destination
path: the file is created/truncated and the content written sequentially,
with no temp-file-then-rename step.  fault models a mid-stream failure
after that many characters: the call reports failure (false) and the
destination is left holding the prefix written so far. -/
def writeFileChunked (fs : FS) (p : String) (content : String) (fault : Option Nat) :
    FS × Bool :=
  match fault with
  | none => (fsSet fs p content, true)
  | some k =>
    if strLen content ≤ k then (fsSet fs p content, true)
    else (fsSet fs p (strTake content k), false)

/-- Environment of saveImage: the fetch oracle, the current ISO
timestamp, the SVG optimizer (svgo optimize, lines 270-278, abstracted as
a text transformation), the sharp raster re-encoder (bytes and target
format to re-encoded bytes or a processing error), and the write fault
model. -/
structure SaveEnv where
  fetchO : Nat → Except String FetchResponse
  now : String
  optimizeSvg : String → String
  sharpEncode : String → String → Except String String
  writeFault : Option Nat

/-- Outcome of saveImage: the returned filepath or thrown error, the
filesystem after the call, and the number of fetch attempts made. -/
structure SaveOut where
  result : Except String String
  fs : FS
  fetchAttempts : Nat

/-- saveImage (lines 181-307): format validation and compatibility check
(outside the try, lines 182-192), path resolution, the fetch retry loop,
then SVG optimization + write or sharp re-encode + write.  Errors thrown
inside the try are wrapped as "Failed to save image: ..." by the outer
catch (line 305); a sharp failure is additionally wrapped as "Image
processing failed: ..." (line 299).  Directory creation is modelled as
succeeding. -/
def saveImage (env : SaveEnv) (_imageUrl prompt model format0 : String)
    (outputPath webProjectPath projectType assetPath : Option String)
    (fs : FS) : SaveOut :=
  let format := jsToLower format0
  if ¬ supportedFormats.contains format then
    ⟨.error ("Unsupported format: " ++ format ++ ". Supported formats are: svg, png, jpg, jpeg, webp"),
      fs, 0⟩
  else if ¬ validateModelFormatCompatibility model format then
    ⟨.error (incompatMessage model format), fs, 0⟩
  else
    let projectBasePath :=
      if ¬ jsFalsy webProjectPath then processWebProjectPath webProjectPath projectType assetPath
      else none
    let timestamp := sanitizeTimestamp env.now
    let sanitizedPrompt := sanitizePrompt prompt
    let filepath := resolveFilepath outputPath projectBasePath timestamp model sanitizedPrompt format
    match fetchImage env.fetchO with
    | ⟨.error e, _, n⟩ => ⟨.error ("Failed to save image: " ++ e), fs, n⟩
    | ⟨.ok resp, _, n⟩ =>
      let content := resp.body
      if format = "svg" then
        let data := env.optimizeSvg content
        let w := writeFileChunked fs filepath data env.writeFault
        if w.2 then ⟨.ok filepath, w.1, n⟩
        else ⟨.error "Failed to save image: write failed", w.1, n⟩
      else
        match env.sharpEncode content format with
        | .error e =>
          ⟨.error ("Failed to save image: Image processing failed: " ++ e), fs, n⟩
        | .ok encoded =>
          let w := writeFileChunked fs filepath encoded env.writeFault
          if w.2 then ⟨.ok filepath, w.1, n⟩
          else ⟨.error ("Failed to save image: Image processing failed: write failed"), w.1, n⟩

/-- The destination path as saveImage computes it (lines 194-230): the
web-project base path (when the web project path is truthy) fed with the
sanitized timestamp and prompt into the three-branch path resolution. -/
def saveDestination (env : SaveEnv) (prompt model : String)
    (op wpp pt ap : Option String) (format : String) : String :=
  resolveFilepath op
    (if ¬ jsFalsy wpp then processWebProjectPath wpp pt ap else none)
    (sanitizeTimestamp env.now) model (sanitizePrompt prompt) format

/-- Error classification of the generate_image catch (lines 699-732):
substring matching on the thrown message selects the error type and the
user-facing message. -/
def classifyErrorResponse (msg : String) : EverArtErrorType × String :=
  if jsIncludes msg "SVG format" then (.FORMAT_ERROR, msg)
  else if jsIncludes msg "Failed to fetch image" then
    (.NETWORK_ERROR,
      "Failed to download the generated image. Please check your internet connection and try again.")
  else if jsIncludes msg "rate limit" then
    (.API_ERROR, "EverArt API rate limit reached. Please try again later.")
  else if jsIncludes msg "unauthorized" || jsIncludes msg "authentication" then
    (.AUTHENTICATION_ERROR, "API authentication failed. Please check your EverArt API key.")
  else (.UNKNOWN_ERROR, msg)

/-- A completed generation job record as returned by fetchWithPolling:
the claims only involve its image_url field (line 630). -/
structure PolledGen where
  image_url : Option String
deriving DecidableEq, Repr

/-- One remote/network interaction of the generate_image pipeline. -/
inductive NetCall where
  | create (attempt : Nat)
  | poll
  | fetchCall (attempt : Nat)
deriving DecidableEq, Repr

/-- The create attempts of a submission loop that made n attempts. -/
def createCalls (n : Nat) : List NetCall := (List.range n).map .create

/-- The fetch attempts of a fetch loop that made n attempts. -/
def fetchCalls (n : Nat) : List NetCall := (List.range n).map .fetchCall

/-- Environment of the generate_image handler: the submission oracle
(attempt index to the created generation id or a thrown error), the
polling outcome for a given generation id, the saveImage environment, the
viewer-open outcome, and the inline-read outcome.  The generations array
indexing generation[0].id is abstracted into the single id the oracle
returns. -/
structure GenEnv where
  createO : Nat → Except String String
  pollResult : String → Except String PolledGen
  saveEnv : SaveEnv
  openResult : Except String Unit
  inlineRead : Except String String

/-- Outcome of the generate_image handler: the tool result (success
filepath, or the classified error response), the filesystem, the remote
calls made in order, and the console warnings of the non-critical side
effects. -/
structure GenOutcome where
  result : Except (EverArtErrorType × String) String
  fs : FS
  calls : List NetCall
  warnings : List String

/-- The generate_image handler (lines 522-733): validation, submission
with retries, polling, the image-url check (lines 630-633), saveImage,
then the best-effort viewer-open and inline read whose failures only
produce warnings (lines 647-653, 664-672).  Thrown errors are classified
by the catch (lines 699-732). -/
def generate_image (env : GenEnv) (args : GenerateArgs) (fs : FS) : GenOutcome :=
  match validateGenerateArgs args with
  | .error e => ⟨.error e, fs, [], []⟩
  | .ok v =>
    match createGeneration env.createO with
    | ⟨.error e, _, n⟩ => ⟨.error (classifyErrorResponse e), fs, createCalls n, []⟩
    | ⟨.ok genId, _, n⟩ =>
      match env.pollResult genId with
      | .error e => ⟨.error (classifyErrorResponse e), fs, createCalls n ++ [.poll], []⟩
      | .ok gen =>
        match gen.image_url with
        | none =>
          ⟨.error (classifyErrorResponse "No image URL in the completed generation"),
            fs, createCalls n ++ [.poll], []⟩
        | some url =>
          match saveImage env.saveEnv url args.prompt v.modelInput v.format
              args.output_path args.web_project_path args.project_type args.asset_path fs with
          | ⟨.error e, fs', m⟩ =>
            ⟨.error (classifyErrorResponse e), fs', createCalls n ++ [.poll] ++ fetchCalls m, []⟩
          | ⟨.ok filepath, fs', m⟩ =>
            let w1 :=
              match env.openResult with
              | .error e => ["Could not open the image in default viewer: " ++ e]
              | .ok _ => []
            let w2 :=
              match env.inlineRead with
              | .error e => ["Unable to read image for inline display: " ++ e]
              | .ok _ => []
            ⟨.ok filepath, fs', createCalls n ++ [.poll] ++ fetchCalls m, w1 ++ w2⟩

/-- Suggestion filter of view_image for a not-found filename
(lines 817-820): stored files whose lowercased name contains the query,
or where the query contains the last underscore-separated fragment of the
name; capped at 3. -/
def viewSuggestions (availableFiles : List String) (filename : String) : List String :=
  (availableFiles.filter (fun f =>
    jsIncludes (jsToLower f) (jsToLower filename) ||
    jsIncludes (jsToLower filename) (jsSplitLast (jsToLower f) '_'))).take 3

/-- Not-found message of view_image (lines 812-833). -/
def notFoundMessage (availableFiles : List String) (filename : String) : String :=
  let base := "Image not found: " ++ filename
  if availableFiles.length = 0 then base
  else
    let suggestions := viewSuggestions availableFiles filename
    let withSug :=
      if suggestions.length > 0 then
        base ++ "\n\nDid you mean one of these?\n" ++
          String.intercalate "\n" (suggestions.map (fun s => "• " ++ s))
      else base
    withSug ++ "\n\nUse \x27list_images\x27 to see all available images."

/-- Environment of the view_image handler: whether fs.access finds the
file, the inline readFile outcome, the viewer-open outcome, and the
stored-files listing used for suggestions. -/
structure ViewEnv where
  fileExists : Bool
  readResult : Except String String
  openResult : Except String Unit
  storedFiles : List String

/-- The view_image handler (lines 793-879): filename validation,
existence check with suggestions, inline read whose failure only warns
(lines 840-848), then the unguarded viewer-open at line 850 whose failure
propagates to the outer catch (lines 872-878) as an UNKNOWN_ERROR
response.  On success the result carries the display text and the
filepath. -/
def view_image (env : ViewEnv) (filename : Option String) :
    Except (EverArtErrorType × String) (String × String) :=
  match filename with
  | none => .error (.VALIDATION_ERROR, "filename is required and must be a string")
  | some fname =>
    if fname = "" then
      .error (.VALIDATION_ERROR, "filename is required and must be a string")
    else
      let filepath := pathJoin STORAGE_DIR fname
      if ¬ env.fileExists then
        .error (.VALIDATION_ERROR, notFoundMessage env.storedFiles fname)
      else
        match env.openResult with
        | .error e => .error (.UNKNOWN_ERROR, "Error viewing image: " ++ e)
        | .ok _ => .ok ("Viewing image: " ++ fname, filepath)

/-- A successful 200 response with the given body. -/
def okResp (b : String) : FetchResponse := ⟨true, 200, "OK", none, b⟩

/-- A saveImage environment whose fetch succeeds immediately with the
given body, whose optimizer and re-encoder are the identity, and whose
writes complete. -/
def plainSaveEnv (b : String) : SaveEnv :=
  ⟨fun _ => .ok (okResp b), "T", id, fun c _ => .ok c, none⟩

/-- A generate_image environment where every remote step succeeds and the
fetched body is b. -/
def plainGenEnv (b : String) : GenEnv :=
  ⟨fun _ => .ok "gid", fun _ => .ok ⟨some "u"⟩, plainSaveEnv b, .ok (), .ok b⟩

/-- A generate_image environment whose polling returns a completed job
record with no image url. -/
def noUrlGenEnv (b : String) : GenEnv :=
  ⟨fun _ => .ok "gid", fun _ => .ok ⟨none⟩, plainSaveEnv b, .ok (), .ok b⟩

/-- A saveImage environment whose write fails after k characters. -/
def faultySaveEnv (b : String) (k : Nat) : SaveEnv :=
  ⟨fun _ => .ok (okResp b), "T", id, fun c _ => .ok c, some k⟩

/-- A view_image environment where the file exists, the inline read
succeeds, and the viewer-open throws. -/
def openFailViewEnv : ViewEnv := ⟨true, .ok "data", .error "boom", []⟩

/-- A concrete incompatible request: format svg with model 5000. -/
def c1Args : GenerateArgs := ⟨"p", some "5000", none, some "svg", none, none, none, none⟩

/-- A concrete valid request: format png with model 5000. -/
def pngArgs : GenerateArgs := ⟨"p", some "5000", none, some "png", none, none, none, none⟩

/-- A rate-limited response carrying a retry-after hint of 7 seconds. -/
def resp429 : FetchResponse := ⟨false, 429, "Too Many Requests", some 7, ""⟩

/-- A fetch oracle that is rate limited on the first attempt and
succeeds on the second. -/
def rlOracle : Nat → Except String FetchResponse :=
  fun i => if i = 0 then .ok resp429 else .ok (okResp "B")



/-- Every failure of the generate_image validation prefix is a
VALIDATION_ERROR. -/
theorem validateGenerateArgs_error_type (args : GenerateArgs)
    (e : EverArtErrorType × String) (h : validateGenerateArgs args = .error e) :
    e.1 = .VALIDATION_ERROR := by
  simp only [validateGenerateArgs] at h
  repeat' split at h
  all_goals
    first
      | exact Except.noConfusion h
      | (injection h with h2; rw [← h2])

/-- The compatibility check fails for format svg with any model other
than 8000. -/
theorem compat_svg_false (model : String) (hm : model ≠ "8000") :
    validateModelFormatCompatibility model "svg" = false := by
  unfold validateModelFormatCompatibility
  rw [if_pos]
  rw [Bool.and_eq_true]
  exact ⟨by decide, bne_iff_ne.mpr hm⟩

/-- With format svg and an extracted model id other than 8000, the
validation prefix cannot succeed. -/
theorem validateGenerateArgs_svg_incompat_no_ok (args : GenerateArgs)
    (hf : args.format = some "svg") (hm : extractModelId args.model ≠ "8000")
    (v : ValidatedRequest) : validateGenerateArgs args ≠ .ok v := by
  intro h
  have hc := compat_svg_false (extractModelId args.model) hm
  have hjs : jsOrStr (some "svg")
      (if extractModelId args.model = "8000" then "svg" else "png") = "svg" := rfl
  simp only [validateGenerateArgs, hf, hjs, hc] at h
  repeat' split at h
  all_goals
    first
      | exact Except.noConfusion h
      | simp_all

/-- C10: validateModelFormatCompatibility rejects exactly the
combinations with (lowercased) format svg and a model other than 8000;
in particular model 8000 with each raster format is accepted, and both
call sites (the generate_image validation prefix and saveImage) accept
model 8000 with format png. -/
theorem compat_only_rejects_svg_nonvector :
    (∀ model format : String,
       validateModelFormatCompatibility model format = false ↔
         (jsToLower format = "svg" ∧ model ≠ "8000"))
  ∧ validateModelFormatCompatibility "8000" "png" = true
  ∧ validateModelFormatCompatibility "8000" "jpg" = true
  ∧ validateModelFormatCompatibility "8000" "jpeg" = true
  ∧ validateModelFormatCompatibility "8000" "webp" = true
  ∧ validateGenerateArgs ⟨"p", some "8000", none, some "png", none, none, none, none⟩ =
      .ok ⟨"8000", 1, "png"⟩
  ∧ (saveImage (plainSaveEnv "B") "u" "p" "8000" "png" none none none none []).result =
      .ok "images/T_8000_p.png" := by
  refine ⟨fun model format => ?_, by decide, by decide, by decide, by decide, by rfl, by rfl⟩
  unfold validateModelFormatCompatibility
  split_ifs with h
  · simp only [Bool.and_eq_true, beq_iff_eq, bne_iff_ne] at h
    simp [h]
  · simp only [Bool.and_eq_true, beq_iff_eq, bne_iff_ne, not_and, not_not] at h
    constructor
    · intro hfalse
      exact absurd hfalse (by simp)
    · rintro ⟨hs, hmne⟩
      exact absurd (h hs) hmne

/-- C2 counterexample: an image_count of 0 lies outside [1,10], yet the
request passes validation (the JS or-default coerces 0 to 1) and the
whole generate_image pipeline succeeds, instead of returning the claimed
Validation failure. -/
theorem count_zero_passes_validation :
    validateGenerateArgs ⟨"p", some "5000", some 0, some "png", none, none, none, none⟩ =
      .ok ⟨"5000", 1, "png"⟩ ∧
    (generate_image (plainGenEnv "B") ⟨"p", some "5000", some 0, some "png", none, none, none, none⟩
        []).result = .ok "images/T_5000_p.png" :=
  ⟨by rfl, by rfl⟩

/-- C2 amended: for every explicitly provided nonzero image_count outside
[1,10] the handler returns a Validation failure, and every image_count in
[1,10] passes the count check (shown with otherwise-valid arguments);
image_count = 0 is coerced to the default 1 by the JS or-default and
passes. -/
theorem count_range_check (args : GenerateArgs) (c : Int) (hc : args.image_count = some c) :
    (c ≠ 0 → (c < 1 ∨ 10 < c) →
       ∃ m, validateGenerateArgs args = .error (.VALIDATION_ERROR, m))
  ∧ (∀ c' : Int, 1 ≤ c' → c' ≤ 10 →
       validateGenerateArgs ⟨"p", some "5000", some c', some "png", none, none, none, none⟩ =
         .ok ⟨"5000", c', "png"⟩) := by
  constructor
  · intro hne hout
    have hjs : jsOrInt args.image_count 1 = c := by simp [jsOrInt, hc, hne]
    simp only [validateGenerateArgs, hjs]
    split_ifs with h1 <;> exact ⟨_, rfl⟩
  · intro c' h1 h2
    have hne : c' ≠ 0 := by omega
    have hjs : jsOrInt (some c') 1 = c' := by simp [jsOrInt, hne]
    simp only [validateGenerateArgs, hjs]
    rw [if_neg (by decide : ¬jsTrim "p" = "")]
    rw [if_neg (by omega : ¬(c' < 1 ∨ 10 < c'))]
    rfl

/-- C1: a generate_image request with format svg and an extracted model
id other than 8000 returns a VALIDATION_ERROR failure with no remote call
made; and a call reaching saveImage with a format lowercasing to svg and
a model other than 8000 likewise fails at the repeated compatibility
check there, with no fetch attempt and the filesystem untouched. -/
theorem svg_incompat_rejected_both_sites :
    (∀ (env : GenEnv) (args : GenerateArgs) (fs : FS),
       args.format = some "svg" → extractModelId args.model ≠ "8000" →
       (∃ m, (generate_image env args fs).result = .error (.VALIDATION_ERROR, m)) ∧
         (generate_image env args fs).calls = [])
  ∧ (∀ (senv : SaveEnv) (url prompt model format0 : String)
       (op wpp pt ap : Option String) (fs : FS),
       jsToLower format0 = "svg" → model ≠ "8000" →
       saveImage senv url prompt model format0 op wpp pt ap fs =
         ⟨.error (incompatMessage model "svg"), fs, 0⟩) := by
  constructor
  · intro env args fs hf hm
    rcases hval : validateGenerateArgs args with e | v
    · have ht := validateGenerateArgs_error_type args e hval
      refine ⟨⟨e.2, ?_⟩, ?_⟩
      · simp only [generate_image, hval]
        rw [← ht]
      · simp only [generate_image, hval]
    · exact absurd hval (validateGenerateArgs_svg_incompat_no_ok args hf hm v)
  · intro senv url prompt model format0 op wpp pt ap fs hf hm
    have hc := compat_svg_false model hm
    simp only [saveImage, hf, hc]
    rw [if_neg (by decide : ¬¬supportedFormats.contains "svg" = true)]
    rw [if_pos (by simp : ¬(false = true))]

/-- C1 witness: the concrete request with format svg and model 5000 is
rejected with a VALIDATION_ERROR and no remote calls, and the
corresponding direct saveImage call fails with the compatibility error,
zero fetch attempts, and an unchanged filesystem. -/
theorem svg_incompat_rejected_both_sites_witness :
    ((∃ m, (generate_image (plainGenEnv "B") c1Args []).result =
        .error (.VALIDATION_ERROR, m)) ∧
      (generate_image (plainGenEnv "B") c1Args []).calls = []) ∧
    saveImage (plainSaveEnv "B") "u" "p" "5000" "svg" none none none none [] =
      ⟨.error (incompatMessage "5000" "svg"), [], 0⟩ :=
  ⟨svg_incompat_rejected_both_sites.1 (plainGenEnv "B") c1Args [] rfl (by decide),
    svg_incompat_rejected_both_sites.2 (plainSaveEnv "B") "u" "p" "5000" "svg"
      none none none none [] (by decide) (by decide)⟩

/-- C3: with the budget MAX_RETRIES = 3, each of the two retry loops
makes exactly MAX_RETRIES attempts when every attempt fails, and the
final outcome is the failure carrying the last underlying error; when the
operation fails N-1 times and then succeeds, with N ≤ MAX_RETRIES, the
result is success and exactly N attempts were made.  The job-submission
loop and the artifact-fetch loop are separate functions of their own
oracles, each with its own counter. -/
theorem retry_loops_attempt_budget {α : Type}
    (opS : Nat → Except String α) (opF : Nat → Except String FetchResponse)
    (eS eF : Nat → String) (v : α) (resp : FetchResponse)
    (N : Nat) (hN1 : 1 ≤ N) (hNM : N ≤ MAX_RETRIES) :
    ((∀ i, i < MAX_RETRIES → opS i = .error (eS i)) →
        (createGeneration opS).result = .error (eS (MAX_RETRIES - 1)) ∧
          (createGeneration opS).attempts = MAX_RETRIES)
  ∧ ((∀ i, i < MAX_RETRIES → opF i = .error (eF i)) →
        (fetchImage opF).result = .error (eF (MAX_RETRIES - 1)) ∧
          (fetchImage opF).attempts = MAX_RETRIES)
  ∧ ((∀ i, i < N - 1 → opS i = .error (eS i)) → opS (N - 1) = .ok v →
        (createGeneration opS).result = .ok v ∧ (createGeneration opS).attempts = N)
  ∧ ((∀ i, i < N - 1 → opF i = .error (eF i)) → opF (N - 1) = .ok resp → resp.ok = true →
        (fetchImage opF).result = .ok resp ∧ (fetchImage opF).attempts = N) := by
  rw [show MAX_RETRIES = 3 from rfl] at hNM ⊢
  refine ⟨?_, ?_, ?_, ?_⟩
  · intro h
    have h0 := h 0 (by decide)
    have h1 := h 1 (by decide)
    have h2 := h 2 (by decide)
    simp [createGeneration, createLoopAux, MAX_RETRIES, h0, h1, h2]
  · intro h
    have h0 := h 0 (by decide)
    have h1 := h 1 (by decide)
    have h2 := h 2 (by decide)
    simp [fetchImage, fetchLoopAux, MAX_RETRIES, h0, h1, h2]
  · intro h hs
    interval_cases N
    · simp [createGeneration, createLoopAux, MAX_RETRIES, hs]
    · have h0 := h 0 (by decide)
      simp [createGeneration, createLoopAux, MAX_RETRIES, h0, hs]
    · have h0 := h 0 (by decide)
      have h1 := h 1 (by decide)
      simp [createGeneration, createLoopAux, MAX_RETRIES, h0, h1, hs]
  · intro h hs hok
    interval_cases N
    · simp [fetchImage, fetchLoopAux, MAX_RETRIES, hs, hok]
    · have h0 := h 0 (by decide)
      simp [fetchImage, fetchLoopAux, MAX_RETRIES, h0, hs, hok]
    · have h0 := h 0 (by decide)
      have h1 := h 1 (by decide)
      simp [fetchImage, fetchLoopAux, MAX_RETRIES, h0, h1, hs, hok]

/-- C3 witness: a submission oracle and a fetch oracle that always fail
exhaust the budget after exactly 3 attempts with the last error, and
oracles failing once then succeeding give success after exactly 2
attempts. -/
theorem retry_loops_attempt_budget_witness :
    ((createGeneration (fun i => (.error (toString i) : Except String Nat))).result =
        .error "2" ∧
      (createGeneration (fun i => (.error (toString i) : Except String Nat))).attempts = 3)
  ∧ ((createGeneration (fun i => if i = 0 then .error "0" else .ok 7)).result = .ok 7 ∧
      (createGeneration (fun i => if i = 0 then (.error "0" : Except String Nat) else .ok 7)).attempts = 2)
  ∧ ((fetchImage (fun i => if i = 0 then .error "0" else .ok (okResp "B"))).result =
        .ok (okResp "B") ∧
      (fetchImage (fun i => if i = 0 then .error "0" else .ok (okResp "B"))).attempts = 2) := by
  refine ⟨?_, ?_, ?_⟩
  · exact (retry_loops_attempt_budget (fun i => .error (toString i))
      (fun i => .error (toString i)) (fun i => toString i) (fun i => toString i)
      0 (okResp "B") 1 (by decide) (by decide)).1 (fun i _ => rfl)
  · exact (retry_loops_attempt_budget (fun i => if i = 0 then .error "0" else .ok 7)
      (fun i => .error (toString i)) (fun i => toString i) (fun i => toString i)
      7 (okResp "B") 2 (by decide) (by decide)).2.2.1
      (fun i hi => by interval_cases i; rfl) (by rfl)
  · exact (retry_loops_attempt_budget (fun i => (.error (toString i) : Except String Nat))
      (fun i => if i = 0 then .error "0" else .ok (okResp "B"))
      (fun i => toString i) (fun i => toString i)
      0 (okResp "B") 2 (by decide) (by decide)).2.2.2
      (fun i hi => by interval_cases i; rfl) (by rfl) (by rfl)

/-- C4: with an explicit output path, resolution is total (never a
failure) and: a path with no extension gets "." and the format appended;
a path whose extension disagrees case-insensitively with the requested
format keeps the original base name with the extension replaced by the
format; a matching extension leaves the path unchanged. -/
theorem output_path_extension_handling
    (op format : String) (pbp : Option String) (t m sp : String) (hop : op ≠ "") :
    (extname op = "" →
       resolveFilepath (some op) pbp t m sp format = op ++ "." ++ format)
  ∧ (extname op ≠ "" → jsToLower (strDrop (extname op) 1) ≠ jsToLower format →
       resolveFilepath (some op) pbp t m sp format =
         strTake op (strLen op - strLen (extname op)) ++ "." ++ format)
  ∧ (extname op ≠ "" → jsToLower (strDrop (extname op) 1) = jsToLower format →
       resolveFilepath (some op) pbp t m sp format = op) := by
  refine ⟨fun h1 => ?_, fun h1 h2 => ?_, fun h1 h2 => ?_⟩
  · simp [resolveFilepath, jsFalsy, hop, h1]
  · simp [resolveFilepath, jsFalsy, hop, h1, h2]
  · simp [resolveFilepath, jsFalsy, hop, h1, h2]

/-- C4 witness: an extensionless path gets the format appended, a .jpg
path with requested format webp keeps its base name with extension
replaced, and a case-insensitively matching extension is left
unchanged. -/
theorem output_path_extension_handling_witness :
    resolveFilepath (some "out") none "T" "5000" "p" "png" = "out.png"
  ∧ resolveFilepath (some "b.jpg") none "T" "5000" "p" "webp" = "b.webp"
  ∧ resolveFilepath (some "c.PNG") none "T" "5000" "p" "png" = "c.PNG" := by
  refine ⟨?_, ?_, ?_⟩
  · exact (output_path_extension_handling "out" "png" none "T" "5000" "p" (by decide)).1
      (by decide)
  · exact ((output_path_extension_handling "b.jpg" "webp" none "T" "5000" "p" (by decide)).2.1
      (by decide) (by decide)).trans (by decide)
  · exact (output_path_extension_handling "c.PNG" "png" none "T" "5000" "p" (by decide)).2.2
      (by decide) (by decide)

/-- C5: when an attempt of the artifact-fetch loop receives a 429
response, the wait before the next attempt is the retry-after hint in
milliseconds — 5000 ms when the header is absent — instead of the
exponential backoff delay, and the loop retries at the next attempt
index, consuming exactly one unit of the remaining attempt budget. -/
theorem rate_limit_waits_retry_after
    (oracle : Nat → Except String FetchResponse) (i fuel : Nat)
    (prev : Option FetchResponse) (resp : FetchResponse)
    (hor : oracle i = .ok resp) (hok : resp.ok = false) (hst : resp.status = 429) :
    fetchLoopAux oracle i (fuel + 1) prev =
      ((fetchLoopAux oracle (i + 1) fuel (some resp)).1,
        resp.retryAfter.getD 5 * 1000 :: (fetchLoopAux oracle (i + 1) fuel (some resp)).2.1,
        (fetchLoopAux oracle (i + 1) fuel (some resp)).2.2 + 1)
  ∧ (resp.retryAfter = none → resp.retryAfter.getD 5 * 1000 = 5000) := by
  constructor
  · simp [fetchLoopAux, hor, hok, hst]
  · intro hn
    simp [hn]

/-- C5 witness: with an oracle rate limited on attempt 0 with a hint of
7 seconds, the loop waits exactly 7000 ms (not the 1000 ms exponential
delay) and completes after 2 attempts. -/
theorem rate_limit_waits_retry_after_witness :
    (fetchLoopAux rlOracle 0 3 none).2.1 = [7000]
  ∧ (fetchLoopAux rlOracle 0 3 none).2.2 = 2 := by
  have h := (rate_limit_waits_retry_after rlOracle 0 2 none resp429 rfl rfl rfl).1
  constructor
  · rw [show (3 : Nat) = 2 + 1 from rfl, h]
    decide
  · rw [show (3 : Nat) = 2 + 1 from rfl, h]
    decide

/-- C7 counterexample: a pipeline whose polling returns a completed job
without an image url fails with the error classified as UNKNOWN_ERROR —
the generic fallback — not the API kind the claim states. -/
theorem missing_url_not_api_classified :
    (generate_image (noUrlGenEnv "B") pngArgs []).result =
      .error (.UNKNOWN_ERROR, "No image URL in the completed generation")
  ∧ EverArtErrorType.UNKNOWN_ERROR ≠ EverArtErrorType.API_ERROR :=
  ⟨by rfl, by decide⟩

/-- C7 amended: when polling completes with no image url, the pipeline
fails with the missing-url message classified as UNKNOWN_ERROR (the
string classifier has no branch matching it), and no fetch or conversion
step is attempted: the remote calls end at poll and the filesystem is
returned unchanged. -/
theorem missing_url_fails_before_fetch (env : GenEnv) (args : GenerateArgs) (fs : FS)
    (v : ValidatedRequest) (genId : String)
    (hval : validateGenerateArgs args = .ok v)
    (hcr : (createGeneration env.createO).result = .ok genId)
    (hpoll : env.pollResult genId = .ok ⟨none⟩) :
    (generate_image env args fs).result =
      .error (.UNKNOWN_ERROR, "No image URL in the completed generation")
  ∧ (generate_image env args fs).calls =
      createCalls (createGeneration env.createO).attempts ++ [.poll]
  ∧ (generate_image env args fs).fs = fs := by
  have hcls : classifyErrorResponse "No image URL in the completed generation" =
      (.UNKNOWN_ERROR, "No image URL in the completed generation") := by decide
  simp only [generate_image, hval]
  rcases hcg : createGeneration env.createO with ⟨r, ds, n⟩
  rw [hcg] at hcr
  simp only at hcr
  subst hcr
  simp [hpoll, hcls]

/-- C7 amended witness: at the concrete no-url environment the result is
the UNKNOWN_ERROR missing-url failure, the calls are one create attempt
followed by poll with no fetch, and the filesystem is unchanged. -/
theorem missing_url_fails_before_fetch_witness :
    (generate_image (noUrlGenEnv "B") pngArgs []).result =
      .error (.UNKNOWN_ERROR, "No image URL in the completed generation")
  ∧ (generate_image (noUrlGenEnv "B") pngArgs []).calls =
      createCalls (createGeneration (noUrlGenEnv "B").createO).attempts ++ [.poll]
  ∧ (generate_image (noUrlGenEnv "B") pngArgs []).fs = [] :=
  missing_url_fails_before_fetch (noUrlGenEnv "B") pngArgs [] ⟨"5000", 1, "png"⟩ "gid"
    (by rfl) (by rfl) (by rfl)

/-- C9 counterexample: in view_image the viewer-open call (line 850) is
not guarded: on an existing file whose open fails, the handler returns a
failure result (UNKNOWN_ERROR), contradicting the claim that a
viewer-open failure never causes a failure result. -/
theorem view_image_open_failure_fails :
    view_image openFailViewEnv (some "a.png") =
      .error (.UNKNOWN_ERROR, "Error viewing image: boom") := by rfl

/-- C9 amended: in generate_image the viewer-open outcome cannot affect
the result, the filesystem, or the remote calls: a failure is recorded
only as a warning.  In view_image, however, the open call is unguarded,
so on an existing file whose viewer-open fails, the handler returns an
UNKNOWN_ERROR failure. -/
theorem viewer_open_failure_effects (env : GenEnv) (args : GenerateArgs) (fs : FS)
    (o1 o2 : Except String Unit) :
    ((generate_image { env with openResult := o1 } args fs).result =
        (generate_image { env with openResult := o2 } args fs).result
      ∧ (generate_image { env with openResult := o1 } args fs).fs =
        (generate_image { env with openResult := o2 } args fs).fs
      ∧ (generate_image { env with openResult := o1 } args fs).calls =
        (generate_image { env with openResult := o2 } args fs).calls)
  ∧ (∀ (venv : ViewEnv) (fname e : String), fname ≠ "" → venv.fileExists = true →
       venv.openResult = .error e →
       view_image venv (some fname) = .error (.UNKNOWN_ERROR, "Error viewing image: " ++ e)) := by
  constructor
  · cases hval : validateGenerateArgs args with
    | error e =>
      simp [generate_image, hval]
    | ok v =>
      rcases hcg : createGeneration env.createO with ⟨r, ds, n⟩
      cases r with
      | error e =>
        simp [generate_image, hval, hcg]
      | ok genId =>
        cases hpoll : env.pollResult genId with
        | error e =>
          simp [generate_image, hval, hcg, hpoll]
        | ok gen =>
          cases hurl : gen.image_url with
          | none =>
            simp [generate_image, hval, hcg, hpoll, hurl]
          | some url =>
            rcases hsv : saveImage env.saveEnv url args.prompt v.modelInput v.format
                args.output_path args.web_project_path args.project_type args.asset_path fs
              with ⟨sres, sfs, sm⟩
            cases sres with
            | error e =>
              simp [generate_image, hval, hcg, hpoll, hurl, hsv]
            | ok filepath =>
              simp [generate_image, hval, hcg, hpoll, hurl, hsv]
  · intro venv fname e h1 h2 h3
    simp [view_image, h1, h2, h3]

/-- C9 amended witness: at a concrete successful pipeline, a failing
viewer-open leaves the result identical to the one with a succeeding
open, and the concrete view_image open failure yields the UNKNOWN_ERROR
failure. -/
theorem viewer_open_failure_effects_witness :
    (generate_image { plainGenEnv "B" with openResult := .error "boom" } pngArgs []).result =
      (generate_image { plainGenEnv "B" with openResult := .ok () } pngArgs []).result
  ∧ view_image openFailViewEnv (some "a.png") =
      .error (.UNKNOWN_ERROR, "Error viewing image: boom") :=
  ⟨(viewer_open_failure_effects (plainGenEnv "B") pngArgs [] (.error "boom") (.ok ())).1.1,
    (viewer_open_failure_effects (plainGenEnv "B") pngArgs [] (.error "boom") (.ok ())).2
      openFailViewEnv "a.png" "boom" (by decide) (by rfl) (by rfl)⟩

/-- C6 counterexample: the SVG write goes directly to the destination
path; with a write failing after 1 of 5 characters, saveImage reports
failure yet the destination file exists holding the incomplete prefix —
a partially-written file is observable, contradicting the claimed
atomicity. -/
theorem mid_stream_write_leaves_observable_file :
    (saveImage (faultySaveEnv "<svg>" 1) "u" "p" "8000" "svg" (some "img.svg")
        none none none []).result = .error "Failed to save image: write failed"
  ∧ fsGet (saveImage (faultySaveEnv "<svg>" 1) "u" "p" "8000" "svg" (some "img.svg")
        none none none []).fs "img.svg" = some "<"
  ∧ ("<" : String) ≠ "<svg>" :=
  ⟨by rfl, by rfl, by decide⟩

/-- C6 amended: both materializations — the SVG write and the raster
sharp re-encode — write directly to the resolved destination (no
temp-file-then-rename): when the write completes the destination holds
the complete content (the optimized SVG text, respectively the
re-encoded raster bytes), but when the write fails after k of the
content characters, the operation reports failure and the destination is
left holding the partial k-character prefix. -/
theorem write_direct_to_destination (env : SaveEnv)
    (url prompt model format0 : String) (op wpp pt ap : Option String)
    (fs : FS) (resp : FetchResponse) (ds : List Nat) (n : Nat)
    (hfetch : fetchImage env.fetchO = ⟨.ok resp, ds, n⟩) :
    (jsToLower format0 = "svg" → model = "8000" →
      (env.writeFault = none →
        saveImage env url prompt model format0 op wpp pt ap fs =
          ⟨.ok (saveDestination env prompt model op wpp pt ap "svg"),
            fsSet fs (saveDestination env prompt model op wpp pt ap "svg")
              (env.optimizeSvg resp.body), n⟩)
      ∧ (∀ k, env.writeFault = some k → k < strLen (env.optimizeSvg resp.body) →
          (saveImage env url prompt model format0 op wpp pt ap fs).result =
              .error "Failed to save image: write failed"
          ∧ (saveImage env url prompt model format0 op wpp pt ap fs).fs =
              fsSet fs (saveDestination env prompt model op wpp pt ap "svg")
                (strTake (env.optimizeSvg resp.body) k)))
  ∧ (∀ fmt encoded, jsToLower format0 = fmt →
      (fmt = "png" ∨ fmt = "jpg" ∨ fmt = "jpeg" ∨ fmt = "webp") →
      env.sharpEncode resp.body fmt = .ok encoded →
      (env.writeFault = none →
        saveImage env url prompt model format0 op wpp pt ap fs =
          ⟨.ok (saveDestination env prompt model op wpp pt ap fmt),
            fsSet fs (saveDestination env prompt model op wpp pt ap fmt) encoded, n⟩)
      ∧ (∀ k, env.writeFault = some k → k < strLen encoded →
          (saveImage env url prompt model format0 op wpp pt ap fs).result =
              .error "Failed to save image: Image processing failed: write failed"
          ∧ (saveImage env url prompt model format0 op wpp pt ap fs).fs =
              fsSet fs (saveDestination env prompt model op wpp pt ap fmt)
                (strTake encoded k))) := by
  constructor
  · intro hf hm
    subst hm
    have hc : validateModelFormatCompatibility "8000" "svg" = true := by decide
    have hs : ("svg" : String) ∈ supportedFormats := by decide
    constructor
    · intro hw
      simp [saveImage, saveDestination, hf, hfetch, hw, writeFileChunked, hc, hs]
    · intro k hw hk
      have hle : ¬ strLen (env.optimizeSvg resp.body) ≤ k := by omega
      constructor
      · simp [saveImage, saveDestination, hf, hfetch, hw, writeFileChunked, hle, hc, hs]
      · simp [saveImage, saveDestination, hf, hfetch, hw, writeFileChunked, hle, hc, hs]
  · intro fmt encoded hf hfmts hsenc
    have hlow : (jsToLower fmt == "svg") = false := by
      rcases hfmts with h | h | h | h <;> subst h <;> decide
    have hc : validateModelFormatCompatibility model fmt = true := by
      simp [validateModelFormatCompatibility, hlow]
    have hs : fmt ∈ supportedFormats := by
      rcases hfmts with h | h | h | h <;> subst h <;> decide
    have hnsvg : fmt ≠ "svg" := by
      rcases hfmts with h | h | h | h <;> subst h <;> decide
    constructor
    · intro hw
      simp [saveImage, saveDestination, hf, hfetch, hw, writeFileChunked, hc, hs, hnsvg, hsenc]
    · intro k hw hk
      have hle : ¬ strLen encoded ≤ k := by omega
      constructor
      · simp [saveImage, saveDestination, hf, hfetch, hw, writeFileChunked, hle, hc, hs,
          hnsvg, hsenc]
      · simp [saveImage, saveDestination, hf, hfetch, hw, writeFileChunked, hle, hc, hs,
          hnsvg, hsenc]

/-- C6 amended witness: with the complete write the destination holds the
full content (SVG and raster alike); with the write faulting after 1
character each call fails and the destination holds the 1-character
prefix. -/
theorem write_direct_to_destination_witness :
    (saveImage (plainSaveEnv "<svg>") "u" "p" "8000" "svg" (some "img.svg") none none none [] =
      ⟨.ok "img.svg", fsSet [] "img.svg" "<svg>", 1⟩
     ∧ ((saveImage (faultySaveEnv "<svg>" 1) "u" "p" "8000" "svg" (some "img.svg")
          none none none []).result = .error "Failed to save image: write failed"
        ∧ (saveImage (faultySaveEnv "<svg>" 1) "u" "p" "8000" "svg" (some "img.svg")
          none none none []).fs = fsSet [] "img.svg" (strTake "<svg>" 1)))
  ∧ (saveImage (plainSaveEnv "RAW") "u" "p" "5000" "png" (some "img.png") none none none [] =
      ⟨.ok "img.png", fsSet [] "img.png" "RAW", 1⟩
     ∧ ((saveImage (faultySaveEnv "RAW" 1) "u" "p" "5000" "png" (some "img.png")
          none none none []).result =
            .error "Failed to save image: Image processing failed: write failed"
        ∧ (saveImage (faultySaveEnv "RAW" 1) "u" "p" "5000" "png" (some "img.png")
          none none none []).fs = fsSet [] "img.png" (strTake "RAW" 1))) := by
  refine ⟨⟨?_, ?_⟩, ?_, ?_⟩
  · exact (((write_direct_to_destination (plainSaveEnv "<svg>") "u" "p" "8000" "svg"
      (some "img.svg") none none none [] (okResp "<svg>") [] 1 (by rfl)).1
      (by decide) rfl).1 rfl).trans (by rfl)
  · exact ((write_direct_to_destination (faultySaveEnv "<svg>" 1) "u" "p" "8000" "svg"
      (some "img.svg") none none none [] (okResp "<svg>") [] 1 (by rfl)).1
      (by decide) rfl).2 1 rfl (by decide)
  · exact (((write_direct_to_destination (plainSaveEnv "RAW") "u" "p" "5000" "png"
      (some "img.png") none none none [] (okResp "RAW") [] 1 (by rfl)).2
      "png" "RAW" (by decide) (Or.inl rfl) (by rfl)).1 rfl).trans (by rfl)
  · exact ((write_direct_to_destination (faultySaveEnv "RAW" 1) "u" "p" "5000" "png"
      (some "img.png") none none none [] (okResp "RAW") [] 1 (by rfl)).2
      "png" "RAW" (by decide) (Or.inl rfl) (by rfl)).2 1 rfl (by decide)

/-- C8 counterexample: path resolution is deterministic in the request,
so a repeat of the same request with an explicit output path resolves to
the identical path and the second materialization replaces the first
file's content in place; the project-directory branch likewise reuses the
same prompt/model filename for any timestamp. -/
theorem repeat_request_overwrites_in_place :
    (saveImage (plainSaveEnv "B1") "u" "p" "8000" "svg" (some "img.svg")
        none none none []).result = .ok "img.svg"
  ∧ fsGet (saveImage (plainSaveEnv "B1") "u" "p" "8000" "svg" (some "img.svg")
        none none none []).fs "img.svg" = some "B1"
  ∧ fsGet (saveImage (plainSaveEnv "B2") "u" "p" "8000" "svg" (some "img.svg")
        none none none
        (saveImage (plainSaveEnv "B1") "u" "p" "8000" "svg" (some "img.svg")
          none none none []).fs).fs "img.svg" = some "B2"
  ∧ ("B2" : String) ≠ "B1"
  ∧ resolveFilepath none (some "w/public/images") "T" "8000" "p" "svg" =
      resolveFilepath none (some "w/public/images") "T2" "8000" "p" "svg" :=
  ⟨by rfl, by rfl, by rfl, by decide, by rfl⟩

/-- Left cancellation of string append. -/
theorem str_append_left_cancel {a b c : String} (h : a ++ b = a ++ c) : b = c := by
  apply String.ext
  have hd := congrArg String.data h
  simp only [String.data_append] at hd
  exact List.append_cancel_left hd

/-- C8 amended: only the default-storage branch produces timestamped
names: distinct sanitized timestamps give distinct default paths, while
the explicit-output-path branch and the project-directory branch resolve
a repeated identical request to the identical path independent of the
timestamp, where the write then replaces the file in place. -/
theorem storage_path_repeat_behaviour (t1 t2 model sp format : String) (h : t1 ≠ t2) :
    resolveFilepath none none t1 model sp format ≠
      resolveFilepath none none t2 model sp format
  ∧ (∀ (op : String) (pbp : Option String), op ≠ "" →
       resolveFilepath (some op) pbp t1 model sp format =
         resolveFilepath (some op) pbp t2 model sp format)
  ∧ (∀ pb : String, pb ≠ "" →
       resolveFilepath none (some pb) t1 model sp format =
         resolveFilepath none (some pb) t2 model sp format) := by
  refine ⟨?_, fun op pbp hop => by simp [resolveFilepath, jsFalsy, hop],
    fun pb hpb => by simp [resolveFilepath, jsFalsy, hpb]⟩
  intro he
  simp only [resolveFilepath, jsFalsy, pathJoin] at he
  have h1 := str_append_left_cancel he
  have hd := congrArg String.data h1
  simp only [String.data_append, List.append_assoc, List.append_right_inj,
    List.append_left_inj] at hd
  exact h (String.ext hd)

/-- C8 amended witness: distinct timestamps give distinct default-storage
paths, and the explicit path img.svg resolves identically under both
timestamps. -/
theorem storage_path_repeat_behaviour_witness :
    resolveFilepath none none "T1" "5000" "p" "png" ≠
      resolveFilepath none none "T2" "5000" "p" "png"
  ∧ resolveFilepath (some "img.svg") none "T1" "5000" "p" "png" =
      resolveFilepath (some "img.svg") none "T2" "5000" "p" "png" :=
  ⟨(storage_path_repeat_behaviour "T1" "T2" "5000" "p" "png" (by decide)).1,
    (storage_path_repeat_behaviour "T1" "T2" "5000" "p" "png" (by decide)).2.1
      "img.svg" none (by decide)⟩

/-- C2 amended witness: image_count 11 fails validation with a
VALIDATION_ERROR, and image_count 10 passes. -/
theorem count_range_check_witness :
    (∃ m, validateGenerateArgs ⟨"p", some "5000", some 11, some "png", none, none, none, none⟩ =
       .error (.VALIDATION_ERROR, m)) ∧
    validateGenerateArgs ⟨"p", some "5000", some 10, some "png", none, none, none, none⟩ =
      .ok ⟨"5000", 10, "png"⟩ := by
  have h := count_range_check ⟨"p", some "5000", some 11, some "png", none, none, none, none⟩
    11 rfl
  exact ⟨h.1 (by decide) (by omega), h.2 10 (by omega) (by omega)⟩

end EverArtForge
